import Mathlib

/-!
Verification of the `Recorder` input-recording component (`recorder.py`).

Shallow embedding conventions:
* Wall-clock times and timestamps are rationals; callbacks receive the
  current wall time as an explicit argument (Python reads `time.time()`).
* Python `None` becomes `Option.none`; an operation that can raise an
  exception that is not caught inside it returns `Option`/`Except`.
* A pynput listener is a record with a running flag; `Listener.stop`
  clears the flag.
* A keyboard key object is modelled by `PyKey`: whether it has a `char`
  attribute (`hasattr(key, 'char')`), the value of that attribute when
  present (possibly Python `None`, hence `Option String`), and its
  `str(key)` text.  A key callback whose identifier derivation raises is
  the `Except.error` case of the callback argument.
* The filesystem effects of `save_to_file` are modelled by an oracle
  `FsEnv` giving the outcome of each fallible step; uncaught Python
  exceptions are the `Except.error` results of the embedded function.
-/

/-- Event details, per action type, as built by the capture callbacks.
For key events, the logged key name is the Python value
`key.char if hasattr(key, 'char') else str(key)`, which may be `None`,
hence `Option String`. -/
inductive Details where
  | mouseButton (x y : Int) (button : String) : Details
  | mouseScroll (x y dx dy : Int) : Details
  | keyDetail (key : Option String) : Details
deriving DecidableEq, Repr

/-- One entry of `action_list`: the dict
`{"timestamp": t, "type": ty, "details": d}`. -/
structure Event where
  timestamp : Rat
  type : String
  details : Details
deriving DecidableEq, Repr

/-- A pynput listener handle, reduced to its running flag. -/
structure Listener where
  running : Bool
deriving DecidableEq, Repr

/-- `listener.stop()`. -/
def Listener.stop (l : Listener) : Listener :=
  { l with running := false }

/-- The `Recorder` object state: the fields set in `Recorder.__init__`. -/
structure Recorder where
  action_list : List Event
  mouse_listener : Option Listener
  keyboard_listener : Option Listener
  listeners_active : Bool
  start_time : Option Rat
  delete_last_actions : Bool
deriving DecidableEq, Repr

/-- `Recorder.__init__`: empty log, no listeners, inactive, no start
time, trim flag enabled. -/
def Recorder.init : Recorder :=
  { action_list := []
    mouse_listener := none
    keyboard_listener := none
    listeners_active := false
    start_time := none
    delete_last_actions := true }

/-- `Recorder._log_action(action_type, details)` at wall time `t`.
If `listeners_active`, computes `timestamp = t - start_time` and appends
the event; `none` models the `TypeError` raised by
`time.time() - None` when `start_time` was never set. -/
def _log_action (t : Rat) (action_type : String) (details : Details)
    (r : Recorder) : Option Recorder :=
  if r.listeners_active then
    match r.start_time with
    | none => none
    | some s0 =>
        some { r with action_list :=
          r.action_list ++ [{ timestamp := t - s0
                              type := action_type
                              details := details }] }
  else some r

/-- `Recorder._init_recording()` at wall time `t`: sets `start_time`. -/
def _init_recording (t : Rat) (r : Recorder) : Recorder :=
  { r with start_time := some t }

/-- `Recorder._start_mouse_listener()`: when not active, creates and
starts the mouse listener. -/
def _start_mouse_listener (r : Recorder) : Recorder :=
  if r.listeners_active then r
  else { r with mouse_listener := some { running := true } }

/-- `Recorder._start_keyboard_listener()`: when not active, creates and
starts the keyboard listener. -/
def _start_keyboard_listener (r : Recorder) : Recorder :=
  if r.listeners_active then r
  else { r with keyboard_listener := some { running := true } }

/-- `Recorder._delete_last_actions()`:
`self.action_list = self.action_list[:-2 or None]`, i.e. the Python
slice `[:-2]` (the constant `-2` is truthy), keeping all but the last
two entries and clamping at empty. -/
def _delete_last_actions (r : Recorder) : Recorder :=
  { r with action_list := r.action_list.take (r.action_list.length - 2) }

/-- `Recorder.start_listeners()` at wall time `t`. -/
def start_listeners (t : Rat) (r : Recorder) : Recorder :=
  if r.listeners_active then r
  else
    let r1 := _init_recording t r
    let r2 := _start_mouse_listener r1
    let r3 := _start_keyboard_listener r2
    { r3 with listeners_active := true }

/-- `Recorder.stop_listeners()`.  `none` models the `AttributeError`
from `self.mouse_listener.stop()` when a listener handle is still
Python `None` while `listeners_active` is set (unreachable through the
public operations). -/
def stop_listeners (r : Recorder) : Option Recorder :=
  if r.listeners_active then
    match r.mouse_listener, r.keyboard_listener with
    | some ml, some kl =>
        let r1 := { r with mouse_listener := some ml.stop
                           keyboard_listener := some kl.stop }
        let r2 := if r1.delete_last_actions then _delete_last_actions r1 else r1
        some { r2 with listeners_active := false }
    | _, _ => none
  else some r

/-- The mouse `on_click` callback at wall time `t`, with `str(button)`
already rendered to text. -/
def on_click (t : Rat) (x y : Int) (button : String) (pressed : Bool)
    (r : Recorder) : Option Recorder :=
  if pressed then
    _log_action t "mouse_button_down" (Details.mouseButton x y button) r
  else
    _log_action t "mouse_button_up" (Details.mouseButton x y button) r

/-- The mouse `on_scroll` callback at wall time `t`. -/
def on_scroll (t : Rat) (x y dx dy : Int) (r : Recorder) : Option Recorder :=
  _log_action t "mouse_scroll" (Details.mouseScroll x y dx dy) r

/-- A pynput key object as seen by the keyboard callbacks:
whether `hasattr(key, 'char')` holds, the value of the `char`
attribute when present (`none` models a `char` attribute equal to
Python `None`), and the `str(key)` text. -/
structure PyKey where
  hasCharAttr : Bool
  charVal : Option String
  strRepr : String
deriving DecidableEq, Repr

/-- `key.char if hasattr(key, 'char') else str(key)`. -/
def key_name (k : PyKey) : Option String :=
  if k.hasCharAttr then k.charVal else some k.strRepr

/-- The keyboard `on_press` callback at wall time `t`.  The argument is
`Except.error e` when deriving the key identifier raises exception `e`;
the whole body sits in `try/except Exception`, so any exception (also a
`TypeError` out of `_log_action`) is caught, the event is dropped and
the recorder state is returned unchanged. -/
def on_press (t : Rat) (k : Except String PyKey) (r : Recorder) : Recorder :=
  match k with
  | Except.error _ => r
  | Except.ok key =>
      (_log_action t "key_press" (Details.keyDetail (key_name key)) r).getD r

/-- The keyboard `on_release` callback at wall time `t`; exception
handling as in `on_press`. -/
def on_release (t : Rat) (k : Except String PyKey) (r : Recorder) : Recorder :=
  match k with
  | Except.error _ => r
  | Except.ok key =>
      (_log_action t "key_release" (Details.keyDetail (key_name key)) r).getD r

/-- A sequence of `_log_action` invocations, each with its wall time,
action type and details, run left to right. -/
def run_log : List (Rat × String × Details) → Recorder → Option Recorder
  | [], r => some r
  | i :: is, r =>
      match _log_action i.1 i.2.1 i.2.2 r with
      | none => none
      | some r2 => run_log is r2

/-- The Python exception classes distinguished by the `except` clauses
of `save_to_file`. -/
inductive PyError where
  | permissionError (msg : String) : PyError
  | fileNotFoundError (msg : String) : PyError
  | osError (msg : String) : PyError
  | typeError (msg : String) : PyError
  | otherError (msg : String) : PyError
deriving DecidableEq, Repr

instance {ε α : Type} [DecidableEq ε] [DecidableEq α] :
    DecidableEq (Except ε α) := fun a b =>
  match a, b with
  | Except.ok x, Except.ok y =>
      if h : x = y then Decidable.isTrue (by subst h; rfl)
      else Decidable.isFalse (by intro hc; cases hc; exact h rfl)
  | Except.error x, Except.error y =>
      if h : x = y then Decidable.isTrue (by subst h; rfl)
      else Decidable.isFalse (by intro hc; cases hc; exact h rfl)
  | Except.ok _, Except.error _ => Decidable.isFalse (by intro hc; cases hc)
  | Except.error _, Except.ok _ => Decidable.isFalse (by intro hc; cases hc)

/-- Filesystem oracle for one `save_to_file` attempt: whether the
directory exists, the outcome of `os.makedirs`, the `os.access(path,
W_OK)` answer, and the outcomes of `open` and `json.dump`. -/
structure FsEnv where
  path_exists : Bool
  makedirs_result : Except PyError Unit
  access_ok : Bool
  open_result : Except PyError Unit
  dump_result : Except PyError Unit
deriving DecidableEq, Repr

/-- The `try` block of `save_to_file`: create the directory if missing,
check write permission (raising `PermissionError` when denied), open
the file and dump the log.  Returns the first exception raised. -/
def save_try_block (env : FsEnv) (path : String) : Except PyError Unit :=
  match (if env.path_exists then Except.ok () else env.makedirs_result) with
  | Except.error e => Except.error e
  | Except.ok _ =>
      if env.access_ok then
        match env.open_result with
        | Except.error e => Except.error e
        | Except.ok _ => env.dump_result
      else
        Except.error (PyError.permissionError ("Cannot write to directory: " ++ path))

/-- The `except` clauses of `save_to_file`, in source order: each class
of exception is turned into its distinguishing printed message. -/
def handle_save_error (filename : String) : PyError → String
  | PyError.permissionError m => "Permission Error: " ++ m
  | PyError.fileNotFoundError m => "Invalid path: " ++ m
  | PyError.osError m => "Failed to save file " ++ filename ++ ": " ++ m
  | PyError.typeError m => "Error during serialization of action_list to JSON: " ++ m
  | PyError.otherError m => "An unexpected error occurred: " ++ m

/-- Observable outcome of one `save_to_file` call: whether the file was
written and what error message, if any, was printed. -/
structure SaveOutcome where
  file_written : Bool
  printed : Option String
deriving DecidableEq, Repr

/-- `Recorder.save_to_file(path, filename)` under filesystem oracle
`env`.  The body runs only when `listeners_active` is false; every
exception of the `try` block is caught by a handler, so an
`Except.error` result would model an exception propagating out of the
call. -/
def save_to_file (env : FsEnv) (path filename : String) (r : Recorder) :
    Except PyError SaveOutcome :=
  if r.listeners_active then
    Except.ok { file_written := false, printed := none }
  else
    match save_try_block env path with
    | Except.ok _ => Except.ok { file_written := true, printed := none }
    | Except.error e =>
        Except.ok { file_written := false
                    printed := some (handle_save_error filename e) }

/-- `Recorder.get_action_list()`. -/
def get_action_list (r : Recorder) : List Event :=
  r.action_list

/-- A concrete recorder mid-session holding three events (as after
`start_listeners` at time 0 and three key callbacks). -/
def recActive3 : Recorder :=
  { action_list :=
      [{ timestamp := 1, type := "key_press", details := Details.keyDetail (some "a") },
       { timestamp := 2, type := "key_press", details := Details.keyDetail (some "b") },
       { timestamp := 3, type := "key_release", details := Details.keyDetail (some "b") }]
    mouse_listener := some { running := true }
    keyboard_listener := some { running := true }
    listeners_active := true
    start_time := some 0
    delete_last_actions := true }

/-- A concrete idle recorder holding one event (as after a stopped
session with trimming disabled). -/
def recIdle1 : Recorder :=
  { action_list := [{ timestamp := 1, type := "mouse_scroll"
                      details := Details.mouseScroll 5 6 0 1 }]
    mouse_listener := some { running := false }
    keyboard_listener := some { running := false }
    listeners_active := false
    start_time := some 0
    delete_last_actions := true }

/-- The event that `_log_action` builds from one invocation, relative
to session start time `s0`. -/
def mkEvent (s0 : Rat) (i : Rat × String × Details) : Event :=
  { timestamp := i.1 - s0, type := i.2.1, details := i.2.2 }

/-- The event one keyboard callback logs at wall time `t` in a session
started at `s0`. -/
def keyEvent (t s0 : Rat) (ty : String) (k : PyKey) : Event :=
  { timestamp := t - s0, type := ty, details := Details.keyDetail (key_name k) }

/-- Concrete invocation sequence for the C5 witness. -/
def c5invs : List (Rat × String × Details) :=
  [(1, "key_press", Details.keyDetail (some "a")),
   (2, "key_release", Details.keyDetail (some "a"))]

/-- A filesystem oracle on which `json.dump` fails with a `TypeError`. -/
def envBad : FsEnv :=
  { path_exists := true
    makedirs_result := Except.ok ()
    access_ok := true
    open_result := Except.ok ()
    dump_result := Except.error (PyError.typeError "not serializable") }

/-- While the recorder is active with a set start time, a sequence of
`_log_action` invocations raises nothing and appends the corresponding
events in invocation order, each stamped with its wall time minus the
session start time. -/
theorem run_log_spec (invs : List (Rat × String × Details)) (r : Recorder)
    (hact : r.listeners_active = true) (s0 : Rat) (hs : r.start_time = some s0) :
    run_log invs r =
      some { r with action_list := r.action_list ++ invs.map (mkEvent s0) } := by
  induction invs generalizing r with
  | nil => simp [run_log]
  | cons hd tl ih =>
      simp only [run_log, _log_action, hact, if_true, hs]
      rw [ih _ rfl rfl]
      simp [List.append_assoc, mkEvent]

/-- While the recorder is active with both listener handles present,
`stop_listeners` raises nothing, stops both listeners, trims the log
exactly when the trim flag is set, and goes idle. -/
theorem stop_listeners_spec (r : Recorder) (hact : r.listeners_active = true)
    (ml : Listener) (hm : r.mouse_listener = some ml)
    (kl : Listener) (hk : r.keyboard_listener = some kl) :
    stop_listeners r = some
      { r with mouse_listener := some { running := false }
               keyboard_listener := some { running := false }
               action_list := if r.delete_last_actions
                 then r.action_list.take (r.action_list.length - 2)
                 else r.action_list
               listeners_active := false } := by
  simp only [stop_listeners, hact, if_true, hm, hk, Listener.stop, _delete_last_actions]
  cases hd : r.delete_last_actions
  · simp [hd]
  · simp [hd]

/-- Claim C1: with the trim option enabled, stopping while Recording
replaces the log by all but its last two entries: a log of length at
most 1 becomes empty without raising, and a log of length at least 2
loses exactly its last two entries. -/
theorem c1_trim_on_stop (r : Recorder) (hact : r.listeners_active = true)
    (ml : Listener) (hm : r.mouse_listener = some ml)
    (kl : Listener) (hk : r.keyboard_listener = some kl)
    (htrim : r.delete_last_actions = true) :
    ∃ r2, stop_listeners r = some r2 ∧
      r2.action_list = r.action_list.take (r.action_list.length - 2) ∧
      (r.action_list.length ≤ 1 → r2.action_list = []) ∧
      (2 ≤ r.action_list.length →
        r.action_list = r2.action_list ++ r.action_list.drop (r.action_list.length - 2) ∧
        (r.action_list.drop (r.action_list.length - 2)).length = 2) := by
  refine ⟨_, stop_listeners_spec r hact ml hm kl hk, by simp [htrim], ?_, ?_⟩
  · intro h1
    have h0 : r.action_list.length - 2 = 0 := by omega
    simp [htrim, h0]
  · intro h2
    constructor
    · simp only [htrim, if_true]
      exact (List.take_append_drop _ _).symm
    · simp only [List.length_drop]
      omega

/-- Witness for C1: a three-event log keeps exactly its first entry. -/
theorem c1_trim_on_stop_witness :
    recActive3.listeners_active = true ∧ recActive3.delete_last_actions = true ∧
    ∃ r2, stop_listeners recActive3 = some r2 ∧
      r2.action_list = recActive3.action_list.take (recActive3.action_list.length - 2) ∧
      (recActive3.action_list.length ≤ 1 → r2.action_list = []) ∧
      (2 ≤ recActive3.action_list.length →
        recActive3.action_list =
          r2.action_list ++ recActive3.action_list.drop (recActive3.action_list.length - 2) ∧
        (recActive3.action_list.drop (recActive3.action_list.length - 2)).length = 2) :=
  ⟨rfl, rfl, c1_trim_on_stop recActive3 rfl { running := true } rfl { running := true } rfl rfl⟩

/-- Claim C4: `_log_action` while the recorder is Idle leaves the whole
recorder (in particular the log) unchanged and raises nothing, so a
callback firing after stop appends no event. -/
theorem c4_log_action_idle (t : Rat) (action_type : String) (details : Details)
    (r : Recorder) (hidle : r.listeners_active = false) :
    _log_action t action_type details r = some r := by
  simp [_log_action, hidle]

/-- Witness for C4: a late key-release callback on an idle recorder. -/
theorem c4_log_action_idle_witness :
    recIdle1.listeners_active = false ∧
    _log_action 7 "key_release" (Details.keyDetail (some "c")) recIdle1 = some recIdle1 :=
  ⟨rfl, c4_log_action_idle 7 "key_release" (Details.keyDetail (some "c")) recIdle1 rfl⟩

/-- Claim C7: `start_listeners` while already Recording returns the
recorder unchanged: same `start_time`, same listener handles (no
duplicate subscription), still Recording. -/
theorem c7_start_while_recording (t : Rat) (r : Recorder)
    (hact : r.listeners_active = true) :
    start_listeners t r = r ∧
    (start_listeners t r).start_time = r.start_time ∧
    (start_listeners t r).mouse_listener = r.mouse_listener ∧
    (start_listeners t r).keyboard_listener = r.keyboard_listener ∧
    (start_listeners t r).listeners_active = true := by
  have h : start_listeners t r = r := by simp [start_listeners, hact]
  exact ⟨h, by rw [h], by rw [h], by rw [h], by rw [h, hact]⟩

/-- Witness for C7: a second `start_listeners` call mid-session. -/
theorem c7_start_while_recording_witness :
    recActive3.listeners_active = true ∧
    (start_listeners 42 recActive3 = recActive3 ∧
     (start_listeners 42 recActive3).start_time = recActive3.start_time ∧
     (start_listeners 42 recActive3).mouse_listener = recActive3.mouse_listener ∧
     (start_listeners 42 recActive3).keyboard_listener = recActive3.keyboard_listener ∧
     (start_listeners 42 recActive3).listeners_active = true) :=
  ⟨rfl, c7_start_while_recording 42 recActive3 rfl⟩

/-- Claim C8: `stop_listeners` while Idle returns the recorder
unchanged inside `some`: the log is untouched (no trim), nothing is
raised, and the state stays Idle. -/
theorem c8_stop_while_idle (r : Recorder) (hidle : r.listeners_active = false) :
    stop_listeners r = some r := by
  simp [stop_listeners, hidle]

/-- Witness for C8: stopping an idle recorder holding one event. -/
theorem c8_stop_while_idle_witness :
    recIdle1.listeners_active = false ∧ stop_listeners recIdle1 = some recIdle1 :=
  ⟨rfl, c8_stop_while_idle recIdle1 rfl⟩

/-- Claim C2: starting a fresh recorder (trim flag set to `b`), running
any sequence of `_log_action` invocations and stopping leaves the log
holding exactly the first `N - trim` events in invocation order, where
`N` is the number of invocations and the trim count is 0 with the flag
off and 2 clamped to the log length with it on. -/
theorem c2_session_accounting (t0 : Rat) (b : Bool)
    (invs : List (Rat × String × Details)) :
    ∃ r2 r3,
      run_log invs
          (start_listeners t0 { Recorder.init with delete_last_actions := b }) = some r2 ∧
      stop_listeners r2 = some r3 ∧
      r3.action_list = (invs.map (mkEvent t0)).take (invs.length - (if b then 2 else 0)) ∧
      r3.action_list.length = invs.length - (if b then min 2 invs.length else 0) := by
  have hstart : start_listeners t0 { Recorder.init with delete_last_actions := b } =
      { action_list := [], mouse_listener := some { running := true }
        keyboard_listener := some { running := true }, listeners_active := true
        start_time := some t0, delete_last_actions := b } := by
    simp [start_listeners, Recorder.init, _init_recording, _start_mouse_listener,
      _start_keyboard_listener]
  rw [hstart, run_log_spec _ _ rfl t0 rfl]
  refine ⟨_, _, rfl, stop_listeners_spec _ rfl { running := true } rfl { running := true } rfl,
    ?_, ?_⟩
  · cases b
    · simp
    · simp
  · cases b
    · simp
    · simp
      omega

/-- Claim C3 counterexample: a session that leaves one event in the log
(three key events, trimmed by two on stop), followed by a new
`start_listeners` call; the new session still sees the old event, so
the log did not start fresh. -/
theorem c3_counterexample :
    ((run_log [(1, "key_press", Details.keyDetail (some "a")),
               (2, "key_press", Details.keyDetail (some "b")),
               (3, "key_release", Details.keyDetail (some "b"))]
        (start_listeners 0 Recorder.init)).bind stop_listeners).map
        (fun r3 => (start_listeners 10 r3).action_list) =
      some [{ timestamp := 1, type := "key_press", details := Details.keyDetail (some "a") }] ∧
    ([{ timestamp := 1, type := "key_press"
        details := Details.keyDetail (some "a") }] : List Event) ≠ [] := by
  constructor
  · norm_num [run_log, _log_action, stop_listeners, Listener.stop, Recorder.init,
      _delete_last_actions, start_listeners, _init_recording, _start_mouse_listener,
      _start_keyboard_listener]
  · simp

/-- Claim C3 amended: `start_listeners` never touches `action_list`; a
new session accumulates onto whatever log the previous session left
rather than beginning a fresh, empty one. -/
theorem c3_amended_start_keeps_log (t : Rat) (r : Recorder) :
    (start_listeners t r).action_list = r.action_list := by
  by_cases h : r.listeners_active <;>
    simp [start_listeners, _init_recording, _start_mouse_listener,
      _start_keyboard_listener, h]

/-- Claim C5: in a fresh session started at `t0`, every logged event is
stamped with its wall time minus `t0`; if the clock is non-decreasing
and never before `t0`, all timestamps are non-negative (the first one
is the clock offset at the first event, about 0) and the timestamp
sequence is non-decreasing across the log. -/
theorem c5_timestamps (t0 : Rat) (invs : List (Rat × String × Details))
    (hmono : List.Chain' (fun a b => a ≤ b) (invs.map (fun i => i.1)))
    (hstart : ∀ i ∈ invs, t0 ≤ i.1) :
    ∃ r2, run_log invs (start_listeners t0 Recorder.init) = some r2 ∧
      r2.action_list.map (fun e => e.timestamp) = invs.map (fun i => i.1 - t0) ∧
      (∀ e ∈ r2.action_list, 0 ≤ e.timestamp) ∧
      List.Chain' (fun a b => a ≤ b) (r2.action_list.map (fun e => e.timestamp)) := by
  have hstart0 : start_listeners t0 Recorder.init =
      { action_list := [], mouse_listener := some { running := true }
        keyboard_listener := some { running := true }, listeners_active := true
        start_time := some t0, delete_last_actions := true } := by
    simp [start_listeners, Recorder.init, _init_recording, _start_mouse_listener,
      _start_keyboard_listener]
  rw [hstart0, run_log_spec _ _ rfl t0 rfl]
  have hmap : (invs.map (mkEvent t0)).map (fun e => e.timestamp) =
      invs.map (fun i => i.1 - t0) := by
    simp [List.map_map, mkEvent, Function.comp]
  refine ⟨_, rfl, by simpa using hmap, ?_, ?_⟩
  · intro e he
    simp only [List.nil_append, List.mem_map] at he
    obtain ⟨i, hi, rfl⟩ := he
    simpa [mkEvent, sub_nonneg] using hstart i hi
  · simp only [List.nil_append, hmap]
    have : invs.map (fun i => i.1 - t0) = (invs.map (fun i => i.1)).map (fun x => x - t0) := by
      simp [List.map_map, Function.comp]
    rw [this, List.chain'_map]
    exact hmono.imp (fun a b hab => sub_le_sub_right hab t0)

/-- Witness for C5: a press/release pair at times 1 and 2 of a session
started at time 0. -/
theorem c5_timestamps_witness :
    List.Chain' (fun a b => a ≤ b) (c5invs.map (fun i => i.1)) ∧
    (∀ i ∈ c5invs, (0 : Rat) ≤ i.1) ∧
    (∃ r2, run_log c5invs (start_listeners 0 Recorder.init) = some r2 ∧
      r2.action_list.map (fun e => e.timestamp) = c5invs.map (fun i => i.1 - 0) ∧
      (∀ e ∈ r2.action_list, 0 ≤ e.timestamp) ∧
      List.Chain' (fun a b => a ≤ b) (r2.action_list.map (fun e => e.timestamp))) :=
  ⟨by norm_num [c5invs, List.chain'_cons], by decide,
   c5_timestamps 0 c5invs (by norm_num [c5invs, List.chain'_cons]) (by decide)⟩

/-- Claim C6: `save_to_file` while Recording writes no file and prints
nothing; and on any attempt, every exception of the try block is caught
by one of the except clauses, so the call always returns control to
the caller (never an `Except.error`). -/
theorem c6_save_never_raises (env : FsEnv) (path filename : String) (r : Recorder) :
    (∃ out, save_to_file env path filename r = Except.ok out) ∧
    (r.listeners_active = true →
      save_to_file env path filename r =
        Except.ok { file_written := false, printed := none }) := by
  constructor
  · by_cases h : r.listeners_active
    · exact ⟨{ file_written := false, printed := none }, by simp [save_to_file, h]⟩
    · cases htry : save_try_block env path with
      | ok u =>
          exact ⟨{ file_written := true, printed := none },
            by simp [save_to_file, h, htry]⟩
      | error e =>
          exact ⟨{ file_written := false, printed := some (handle_save_error filename e) },
            by simp [save_to_file, h, htry]⟩
  · intro h
    simp [save_to_file, h]

/-- Witness for C6: exporting mid-session under an oracle whose
`json.dump` would fail. -/
theorem c6_save_never_raises_witness :
    recActive3.listeners_active = true ∧
    save_to_file envBad "/tmp" "recording.json" recActive3 =
      Except.ok { file_written := false, printed := none } :=
  ⟨rfl, (c6_save_never_raises envBad "/tmp" "recording.json" recActive3).2 rfl⟩

/-- Claim C9 counterexample: a key object whose `char` attribute exists
but holds Python `None` (pynput delivers such `KeyCode`s, e.g. for an
unknown virtual key): the logged event carries key `None`, which is not
a string and in particular not the symbolic name `str(key)`. -/
theorem c9_counterexample :
    (on_press 1 (Except.ok { hasCharAttr := true, charVal := none, strRepr := "<255>" })
        { Recorder.init with listeners_active := true, start_time := some 0 }).action_list =
      [{ timestamp := 1, type := "key_press", details := Details.keyDetail none }] ∧
    Details.keyDetail (none : Option String) ≠ Details.keyDetail (some "<255>") := by
  constructor
  · simp [on_press, _log_action, key_name, Recorder.init]
  · simp

/-- Claim C9 amended: while Recording with a set start time, a key
press/release logs one event whose key field is the value of the key's
`char` attribute when the key object has that attribute (the printable
character, or Python `None` when the attribute is `None`), and the
symbolic `str(key)` text otherwise; an exception while deriving the
identifier is caught and the event dropped with the recorder state
unchanged, so capture continues. -/
theorem c9_key_identifier (t : Rat) (k : PyKey) (e : String) (r : Recorder)
    (hact : r.listeners_active = true) (s0 : Rat) (hs : r.start_time = some s0) :
    key_name k = (if k.hasCharAttr then k.charVal else some k.strRepr) ∧
    on_press t (Except.ok k) r =
      { r with action_list := r.action_list ++ [keyEvent t s0 "key_press" k] } ∧
    on_release t (Except.ok k) r =
      { r with action_list := r.action_list ++ [keyEvent t s0 "key_release" k] } ∧
    on_press t (Except.error e) r = r ∧
    on_release t (Except.error e) r = r := by
  refine ⟨rfl, ?_, ?_, rfl, rfl⟩
  · simp [on_press, _log_action, hact, hs, keyEvent]
  · simp [on_release, _log_action, hact, hs, keyEvent]

/-- Witness for C9 (amended): the printable key "a" pressed at time 2
of a session started at time 0, and an erroring derivation. -/
theorem c9_key_identifier_witness :
    recActive3.listeners_active = true ∧ recActive3.start_time = some 0 ∧
    (key_name { hasCharAttr := true, charVal := some "a", strRepr := "x" } =
      (if (true : Bool) then some "a" else some "x") ∧
     on_press 2 (Except.ok { hasCharAttr := true, charVal := some "a", strRepr := "x" })
        recActive3 =
      { recActive3 with action_list := recActive3.action_list ++
          [keyEvent 2 0 "key_press" { hasCharAttr := true, charVal := some "a", strRepr := "x" }] } ∧
     on_release 2 (Except.ok { hasCharAttr := true, charVal := some "a", strRepr := "x" })
        recActive3 =
      { recActive3 with action_list := recActive3.action_list ++
          [keyEvent 2 0 "key_release" { hasCharAttr := true, charVal := some "a", strRepr := "x" }] } ∧
     on_press 2 (Except.error "boom") recActive3 = recActive3 ∧
     on_release 2 (Except.error "boom") recActive3 = recActive3) :=
  ⟨rfl, rfl, c9_key_identifier 2 { hasCharAttr := true, charVal := some "a", strRepr := "x" }
    "boom" recActive3 rfl 0 rfl⟩

/-- Claim C10: a fresh `Recorder` has the trim flag enabled, an empty
log, and is Idle; hence a first session of three events stopped with
the default flag still set ends with just one event, the last two
having been trimmed. -/
theorem c10_fresh_recorder_defaults :
    Recorder.init.delete_last_actions = true ∧
    Recorder.init.action_list = [] ∧
    Recorder.init.listeners_active = false ∧
    ((run_log [(1, "key_press", Details.keyDetail (some "a")),
               (2, "key_press", Details.keyDetail (some "b")),
               (3, "key_release", Details.keyDetail (some "b"))]
        (start_listeners 0 Recorder.init)).bind stop_listeners).map
        (fun r3 => r3.action_list.length) = some 1 := by
  refine ⟨rfl, rfl, rfl, ?_⟩
  norm_num [run_log, _log_action, stop_listeners, Listener.stop, Recorder.init,
    _delete_last_actions, start_listeners, _init_recording, _start_mouse_listener,
    _start_keyboard_listener]
